import Mathlib

/-!
Shallow embedding of libs/hwui/DisplayListOp.h: the recorded canvas
operation model of the hwui renderer, with its two execution protocols
(defer and replay).

Modelling conventions:
* C++ float coordinates become rationals; fminf and fmaxf become min and max.
* The renderer (OpenGLRenderer) and the deferred batch buffer
  (DeferredDisplayList) are external collaborators; they are modelled at
  their interface as call traces together with the save count and clip
  state that the operations read.
* Out parameters become returned values; the bool-plus-out-parameter shape
  of getLocalBounds becomes Option; a method that would dereference a null
  paint returns none.
* Virtual dispatch over the operation class hierarchy becomes a match on a
  closed inductive of the modelled operation kinds.
-/

namespace HwuiModel

abbrev Q := Rat

/-- Axis aligned rectangle (Rect.h): left, top, right, bottom. -/
structure Rect where
  left : Q
  top : Q
  right : Q
  bottom : Q
deriving DecidableEq, Repr

/-- Rect.setEmpty sets every coordinate to zero. -/
def Rect.setEmpty : Rect := ⟨0, 0, 0, 0⟩

/-- Rect.outset grows the rectangle by the given amount on every side. -/
def Rect.outset (r : Rect) (d : Q) : Rect :=
  ⟨r.left - d, r.top - d, r.right + d, r.bottom + d⟩

/-- SkPaint::Style. -/
inductive PaintStyle where
  | kFill_Style
  | kStroke_Style
  | kStrokeAndFill_Style
deriving DecidableEq, Repr

/-- The SkPaint fields read by DisplayListOp.h: stroke width, style, the
antialias flag, whether getPathEffect returns a non-null effect, and the
32 bit color. -/
structure Paint where
  strokeWidth : Q
  style : PaintStyle
  antiAlias : Bool
  pathEffect : Bool
  color : Nat
deriving DecidableEq, Repr

/-- DrawOp.strokeWidthOutset: half the stroke width of the paint. -/
def Paint.strokeWidthOutset (p : Paint) : Q := p.strokeWidth * (1 / 2)

/-- Model of mat4 values as compared by DrawTextOp. The DrawTextOp
constructor fills its precache transform with a sentinel byte pattern that
no real font transform takes; the sentinel constructor models that
pattern. -/
inductive Mat4 where
  | sentinel
  | m (v : Int)
deriving DecidableEq, Repr

abbrev SkPath := Int
abbrev SkRegion := Int

/-- SkRegion::Op set-operation selector. -/
inductive RegionOp where
  | kDifference_Op
  | kIntersect_Op
  | kUnion_Op
  | kXOR_Op
  | kReverseDifference_Op
  | kReplace_Op
deriving DecidableEq, Repr

/-- DeferredDisplayList::OpBatchId batching categories. -/
inductive OpBatchId where
  | kOpBatch_None
  | kOpBatch_Bitmap
  | kOpBatch_Patch
  | kOpBatch_AlphaVertices
  | kOpBatch_Vertices
  | kOpBatch_AlphaMaskTexture
  | kOpBatch_Text
  | kOpBatch_ColorText
deriving DecidableEq, Repr

/-- DrawGlInfo status codes accumulated by replay. -/
def kStatusDone : Nat := 0

/-- Clip changing renderer entry points; the renderer clip state is the
sequence of clip changes applied so far. -/
inductive ClipCall where
  | rect (area : Rect) (rop : RegionOp)
  | path (p : SkPath) (rop : RegionOp)
  | region (rgn : SkRegion) (rop : RegionOp)
deriving DecidableEq, Repr

/-- Renderer entry points invoked by the modelled operations; the renderer
records the trace of calls it receives. -/
inductive RCall where
  | save (flags : Int) (result : Int)
  | restoreToCount (count : Int)
  | saveLayer (area : Rect) (alpha : Int) (mode : Nat) (flags : Int)
  | saveLayerDeferred (area : Rect) (alpha : Int) (mode : Nat) (flags : Int)
  | translate (dx : Q) (dy : Q)
  | clip (c : ClipCall)
  | drawRect (area : Rect) (paint : Option Paint)
  | drawLines (points : List Q) (count : Nat) (paint : Option Paint)
  | drawColor (color : Int) (mode : Nat)
  | drawPath (p : SkPath) (paint : Option Paint)
  | drawText (text : String) (bytesCount : Nat) (count : Nat) (x : Q) (y : Q)
      (positions : List Q) (paint : Option Paint) (length : Q)
  | precachePath (p : SkPath)
  | precacheFont (text : String) (count : Nat) (transform : Mat4)
deriving DecidableEq, Repr

/-- Modelled from the spec: the renderer collaborator (OpenGLRenderer) at
its interface — an integer save count, the live clip state, the current
transform, the transform findBestFontTransform reports, the status value
its draw entry points report, and the trace of calls received. -/
structure OpenGLRenderer where
  saveCount : Int
  clipState : List ClipCall
  currentMatrix : Mat4
  fontTransform : Mat4
  drawStatus : Nat
  calls : List RCall
deriving DecidableEq, Repr

namespace OpenGLRenderer

/-- Modelled from the spec: save pushes a snapshot, increments the save
count and returns the previous count. -/
def save (r : OpenGLRenderer) (flags : Int) : OpenGLRenderer × Int :=
  ({ r with saveCount := r.saveCount + 1,
            calls := r.calls ++ [RCall.save flags r.saveCount] }, r.saveCount)

/-- Modelled from the spec: getSaveCount reads the current depth counter. -/
def getSaveCount (r : OpenGLRenderer) : Int := r.saveCount

/-- Modelled from the spec: restoreToCount restores the renderer to the
given depth. -/
def restoreToCount (r : OpenGLRenderer) (count : Int) : OpenGLRenderer :=
  { r with saveCount := count, calls := r.calls ++ [RCall.restoreToCount count] }

/-- Modelled from the spec: the immediate, side-effecting saveLayer entry. -/
def saveLayer (r : OpenGLRenderer) (area : Rect) (alpha : Int) (mode : Nat)
    (flags : Int) : OpenGLRenderer :=
  { r with saveCount := r.saveCount + 1,
           calls := r.calls ++ [RCall.saveLayer area alpha mode flags] }

/-- Modelled from the spec: the state-only saveLayerDeferred placeholder. -/
def saveLayerDeferred (r : OpenGLRenderer) (area : Rect) (alpha : Int)
    (mode : Nat) (flags : Int) : OpenGLRenderer :=
  { r with saveCount := r.saveCount + 1,
           calls := r.calls ++ [RCall.saveLayerDeferred area alpha mode flags] }

/-- Modelled from the spec: translate transform change. -/
def translate (r : OpenGLRenderer) (dx dy : Q) : OpenGLRenderer :=
  { r with calls := r.calls ++ [RCall.translate dx dy] }

/-- Modelled from the spec: a clip entry point applies the clip change to
the live clip state. -/
def applyClip (r : OpenGLRenderer) (c : ClipCall) : OpenGLRenderer :=
  { r with clipState := r.clipState ++ [c], calls := r.calls ++ [RCall.clip c] }

/-- Modelled from the spec: filterPaint applies ambient paint filters; the
filter is identity in this model. -/
def filterPaint (r : OpenGLRenderer) (p : Option Paint) : Option Paint := p

/-- Modelled from the spec: findBestFontTransform reports the transform to
precache glyphs under. -/
def findBestFontTransform (r : OpenGLRenderer) (mat : Mat4) : Mat4 :=
  r.fontTransform

/-- Modelled from the spec: a draw entry point records the call and reports
the backend draw status. -/
def doDraw (r : OpenGLRenderer) (c : RCall) : OpenGLRenderer × Nat :=
  ({ r with calls := r.calls ++ [c] }, r.drawStatus)

end OpenGLRenderer

/-- DeferredDisplayState: the per-operation snapshot slot (the fields this
model uses: the bounds rectangle and the captured transform). -/
structure DeferredDisplayState where
  mBounds : Rect
  mMatrix : Mat4
deriving DecidableEq, Repr

/-- An all-zero snapshot slot, the value a freshly recorded op carries. -/
def stateZero : DeferredDisplayState := ⟨Rect.setEmpty, Mat4.sentinel⟩

/-- Fields shared by every DrawOp: the nullable paint, the quick rejected
flag, and the state snapshot slot inherited from DisplayListOp. -/
structure DrawBase where
  mPaint : Option Paint
  mQuickRejected : Bool
  state : DeferredDisplayState
deriving DecidableEq, Repr

/-- A nested recorded list as referenced by DrawDisplayListOp: whether it
reports itself renderable, its declared width and height, and its recorded
operations. -/
structure DisplayListData (α : Type) where
  renderable : Bool
  width : Q
  height : Q
  ops : List α
deriving DecidableEq, Repr

/-- The modelled operation kinds of DisplayListOp.h. State ops carry their
construction parameters; draw ops additionally carry the DrawOp base
fields, and bounded draw ops their mLocalBounds rectangle.
ClipRegionOp declares a second mOp member (source line 539) that shadows
ClipOp.mOp and that its constructor never initializes; mOpShadow models
that indeterminate member as an explicit unconstrained field, distinct
from the constructed mOp. -/
inductive DLOp where
  | saveOp (mFlags : Int)
  | restoreToCountOp (mCount : Int)
  | saveLayerOp (mArea : Rect) (mAlpha : Int) (mMode : Nat) (mFlags : Int)
  | translateOp (mDx : Q) (mDy : Q)
  | clipRectOp (mArea : Rect) (mOp : RegionOp)
  | clipPathOp (mPath : SkPath) (mOp : RegionOp)
  | clipRegionOp (mRegion : SkRegion) (mOp : RegionOp) (mOpShadow : RegionOp)
  | drawRectOp (b : DrawBase) (mLocalBounds : Rect)
  | drawLinesOp (b : DrawBase) (mLocalBounds : Rect) (mPoints : List Q) (mCount : Nat)
  | drawColorOp (b : DrawBase) (mColor : Int) (mMode : Nat)
  | drawPathOp (b : DrawBase) (mLocalBounds : Rect) (mPath : SkPath)
  | drawTextOp (b : DrawBase) (mLocalBounds : Rect) (mText : String)
      (mBytesCount : Nat) (mCount : Nat) (mX : Q) (mY : Q) (mPositions : List Q)
      (mLength : Q) (mPrecacheTransform : Mat4)
  | drawDisplayListOp (b : DrawBase) (mLocalBounds : Rect)
      (mDisplayList : Option (DisplayListData DLOp)) (mFlags : Int)

abbrev DisplayList := DisplayListData DLOp

/-- Modelled from the spec: the records the deferred batch buffer
(DeferredDisplayList) retains through addSave, addRestoreToCount, addClip,
addSaveLayer and addDrawOp. The addClip record keeps the renderer clip
state observed at registration time, since the buffer may read the clip. -/
inductive DLRecord where
  | addSave (op : DLOp) (newSaveCount : Int)
  | addRestoreToCount (op : DLOp) (resolvedCount : Int)
  | addClip (op : DLOp) (rendererClip : List ClipCall)
  | addSaveLayer (op : DLOp) (newSaveCount : Int)
  | addDrawOp (op : DLOp)

/-- Modelled from the spec: the deferred batch buffer as the sequence of
records handed to it. -/
structure DeferredDisplayList where
  records : List DLRecord

/-- DeferStateStruct: the state threaded through a defer pass. -/
structure DeferStateStruct where
  mRenderer : OpenGLRenderer
  mDeferredList : DeferredDisplayList
  mReplayFlags : Nat

/-- ReplayStateStruct: the state threaded through a replay pass. -/
structure ReplayStateStruct where
  mRenderer : OpenGLRenderer
  mDirty : Rect
  mReplayFlags : Nat
  mDrawGlStatus : Nat

/-- DisplayList::kReplayFlag_ClipChildren. -/
def kReplayFlag_ClipChildren : Nat := 1

/-- Whether the replay flags contain the clip children flag. -/
def clipChildrenSet (flags : Nat) : Bool :=
  flags &&& kReplayFlag_ClipChildren != 0

namespace DLOp

/-- The DrawOp base fields of a draw op; none for state ops. -/
def drawBase : DLOp → Option DrawBase
  | drawRectOp b _ => some b
  | drawLinesOp b _ _ _ => some b
  | drawColorOp b _ _ => some b
  | drawPathOp b _ _ => some b
  | drawTextOp b _ _ _ _ _ _ _ _ _ => some b
  | drawDisplayListOp b _ _ _ => some b
  | _ => none

/-- DrawOp.getQuickRejected; false for state ops. -/
def getQuickRejected (op : DLOp) : Bool :=
  (op.drawBase.map (fun b => b.mQuickRejected)).getD false

/-- Applies f to the DrawOp base fields of a draw op; state ops are
unchanged. -/
def mapBase (f : DrawBase → DrawBase) : DLOp → DLOp
  | drawRectOp b lb => drawRectOp (f b) lb
  | drawLinesOp b lb pts c => drawLinesOp (f b) lb pts c
  | drawColorOp b c mode => drawColorOp (f b) c mode
  | drawPathOp b lb p => drawPathOp (f b) lb p
  | drawTextOp b lb t bc c x y pos len pt => drawTextOp (f b) lb t bc c x y pos len pt
  | drawDisplayListOp b lb dl fl => drawDisplayListOp (f b) lb dl fl
  | op => op

/-- Writes the state snapshot bounds of a draw op. -/
def setStateBounds (op : DLOp) (r : Rect) : DLOp :=
  mapBase (fun b => { b with state := { b.state with mBounds := r } }) op

/-- Reads the state snapshot bounds of a draw op. -/
def stateBounds (op : DLOp) : Option Rect :=
  op.drawBase.map (fun b => b.state.mBounds)

/-- Draw ops that use the inherited DrawOp defer and replay entry points:
every draw op except DrawDisplayListOp, which overrides both. -/
def isBaseDrawOp : DLOp → Bool
  | drawRectOp _ _ => true
  | drawLinesOp _ _ _ _ => true
  | drawColorOp _ _ _ => true
  | drawPathOp _ _ _ => true
  | drawTextOp _ _ _ _ _ _ _ _ _ _ => true
  | _ => false

/-- The clip ops, whose defer comes from ClipOp. -/
def isClipOp : DLOp → Bool
  | clipRectOp _ _ => true
  | clipPathOp _ _ => true
  | clipRegionOp _ _ _ => true
  | _ => false

/-- The clip change the applyState of a clip op hands the renderer.
ClipRectOp and ClipPathOp apply their constructed mOp;
ClipRegionOp::applyState (source line 526) reads the shadowing,
never-initialized derived mOp (line 539), not the constructed ClipOp.mOp,
so its applied change carries the indeterminate mOpShadow value. -/
def clipCallOf : DLOp → Option ClipCall
  | clipRectOp area rop => some (ClipCall.rect area rop)
  | clipPathOp p rop => some (ClipCall.path p rop)
  | clipRegionOp rgn _ shadow => some (ClipCall.region rgn shadow)
  | _ => none

/-- getLocalBounds (true plus out rectangle becomes some; the DrawOp base
default returns false, i.e. none). DrawBoundedOp reports its stored
mLocalBounds; DrawStrokableOp (drawRectOp here) additionally outsets the
stored bounds by half the stroke width when a paint is present whose style
is not fill (source lines 873-879). -/
def getLocalBounds : DLOp → Option Rect
  | drawRectOp b lb =>
      some (match b.mPaint with
        | some p =>
            if p.style != PaintStyle.kFill_Style then lb.outset p.strokeWidthOutset
            else lb
        | none => lb)
  | drawLinesOp _ lb _ _ => some lb
  | drawPathOp _ lb _ => some lb
  | drawTextOp _ lb _ _ _ _ _ _ _ _ => some lb
  | drawDisplayListOp _ lb _ _ => some lb
  | _ => none

/-- getBatchId. The DrawOp base reports kOpBatch_None; DrawStrokableOp
(drawRectOp) routes paints with a path effect to the alpha mask texture
category and otherwise splits on the antialias flag (source lines
881-888); DrawLinesOp splits on the antialias flag alone (lines
1072-1076); DrawPathOp always reports the alpha mask category; text splits
on whether the paint color is pure opaque black. none models a null paint
dereference, which callers never produce. -/
def getBatchId : DLOp → Option OpBatchId
  | drawRectOp b _ =>
      (match b.mPaint with
        | none => none
        | some p =>
            some (if p.pathEffect then OpBatchId.kOpBatch_AlphaMaskTexture
                  else if p.antiAlias then OpBatchId.kOpBatch_AlphaVertices
                  else OpBatchId.kOpBatch_Vertices))
  | drawLinesOp b _ _ _ =>
      (match b.mPaint with
        | none => none
        | some p =>
            some (if p.antiAlias then OpBatchId.kOpBatch_AlphaVertices
                  else OpBatchId.kOpBatch_Vertices))
  | drawTextOp b _ _ _ _ _ _ _ _ _ =>
      (match b.mPaint with
        | none => none
        | some p =>
            some (if p.color = 0xff000000 then OpBatchId.kOpBatch_Text
                  else OpBatchId.kOpBatch_ColorText))
  | drawPathOp _ _ _ => some OpBatchId.kOpBatch_AlphaMaskTexture
  | _ => some OpBatchId.kOpBatch_None

end DLOp

open DLOp

/-- applyState of the StateOp subclasses: SaveOp saves (source line 227),
RestoreToCountOp restores to saveCount + mCount (line 260), SaveLayerOp
issues the immediate saveLayer (line 298), TranslateOp translates, the
clip ops apply their clip change. ClipRegionOp::applyState (line 526)
reads the shadowing, never-initialized derived mOp (line 539), modelled
as the mOpShadow field, not the constructed ClipOp.mOp. Draw ops have no
applyState and leave the renderer unchanged (never reached). -/
def applyState (op : DLOp) (renderer : OpenGLRenderer) (saveCount : Int) :
    OpenGLRenderer :=
  match op with
  | .saveOp flags => (renderer.save flags).1
  | .restoreToCountOp c => renderer.restoreToCount (saveCount + c)
  | .saveLayerOp area alpha mode flags => renderer.saveLayer area alpha mode flags
  | .translateOp dx dy => renderer.translate dx dy
  | .clipRectOp area rop => renderer.applyClip (ClipCall.rect area rop)
  | .clipPathOp p rop => renderer.applyClip (ClipCall.path p rop)
  | .clipRegionOp rgn _ shadow => renderer.applyClip (ClipCall.region rgn shadow)
  | _ => renderer

/-- applyDraw of the draw ops: each issues its renderer draw entry and
reports the status. DrawDisplayListOp.applyDraw returns kStatusDone and
touches nothing, since its replay override never reaches it (source lines
1275-1277). State ops are not draw ops and report kStatusDone. -/
def applyDraw (op : DLOp) (renderer : OpenGLRenderer) (dirty : Rect)
    (level : Int) : OpenGLRenderer × Nat :=
  match op with
  | .drawRectOp b lb => renderer.doDraw (RCall.drawRect lb (renderer.filterPaint b.mPaint))
  | .drawLinesOp b _ pts c => renderer.doDraw (RCall.drawLines pts c (renderer.filterPaint b.mPaint))
  | .drawColorOp _ c mode => renderer.doDraw (RCall.drawColor c mode)
  | .drawPathOp b _ p => renderer.doDraw (RCall.drawPath p (renderer.filterPaint b.mPaint))
  | .drawTextOp b _ t bc c x y pos len _ =>
      renderer.doDraw (RCall.drawText t bc c x y pos (renderer.filterPaint b.mPaint) len)
  | .drawDisplayListOp _ _ _ _ => (renderer, kStatusDone)
  | _ => (renderer, kStatusDone)

/-- onDrawOpDeferred hook: DrawPathOp precaches the path texture (source
lines 1036-1039); DrawTextOp precaches glyphs under the best font
transform for the captured state matrix and caches that transform in
mPrecacheTransform when it differs from the cached one (lines 1193-1201);
the DrawOp base default does nothing (lines 153-154). -/
def onDrawOpDeferred (op : DLOp) (renderer : OpenGLRenderer) :
    OpenGLRenderer × DLOp :=
  match op with
  | .drawPathOp _ _ p =>
      ({ renderer with calls := renderer.calls ++ [RCall.precachePath p] }, op)
  | .drawTextOp b lb t bc c x y pos len pt =>
      let transform := renderer.findBestFontTransform b.state.mMatrix
      if pt != transform then
        ({ renderer with calls := renderer.calls ++ [RCall.precacheFont t c transform] },
         .drawTextOp b lb t bc c x y pos len transform)
      else (renderer, op)
  | _ => (renderer, op)

/-- Modelled from the spec: DeferredDisplayList.addDrawOp captures the
state snapshot of the op at the moment it enters the buffer (here the
renderer transform into state.mMatrix), invokes the deferred draw hook
onDrawOpDeferred, and retains the op. -/
def addDrawOpModel (renderer : OpenGLRenderer) (list : DeferredDisplayList)
    (op : DLOp) : OpenGLRenderer × DeferredDisplayList × DLOp :=
  let op1 := mapBase
    (fun b => { b with state := { b.state with mMatrix := renderer.currentMatrix } }) op
  let res := onDrawOpDeferred op1 renderer
  (res.1, ⟨list.records ++ [DLRecord.addDrawOp res.2]⟩, res.2)

/-- Body of DrawOp.defer past the quick reject guard (source lines
134-139): resolve the local bounds into the state snapshot (empty bounds
signify bounds cannot be calculated) and hand the op to the deferred batch
buffer. -/
def deferDrawUnchecked (deferStruct : DeferStateStruct) (op : DLOp) :
    DeferStateStruct × DLOp :=
  let op1 :=
    match getLocalBounds op with
    | some r => setStateBounds op r
    | none => setStateBounds op Rect.setEmpty
  let res := addDrawOpModel deferStruct.mRenderer deferStruct.mDeferredList op1
  (⟨res.1, res.2.1, deferStruct.mReplayFlags⟩, res.2.2)

/-- Body of DrawOp.replay past the quick reject guard (source line 148):
issue the draw and accumulate its status into mDrawGlStatus. -/
def replayDrawUnchecked (replayStruct : ReplayStateStruct) (op : DLOp)
    (level : Int) : ReplayStateStruct :=
  let res := applyDraw op replayStruct.mRenderer replayStruct.mDirty level
  { replayStruct with
      mRenderer := res.1,
      mDrawGlStatus := replayStruct.mDrawGlStatus ||| res.2 }

mutual

/-- The defer entry point of every modelled op.
SaveOp saves then registers the new count (source lines 221-224);
RestoreToCountOp registers the resolved count saveCount + mCount, then
restores the renderer to it (lines 253-257); SaveLayerOp reads the current
save count, registers it, and issues only the state-only saveLayerDeferred
placeholder (lines 286-295); TranslateOp uses the StateOp default and
applies its state directly (lines 107-110); clip ops register with the
buffer before applying their own state change (lines 450-456); draw ops
use the DrawOp base defer with its quick reject guard (lines 128-140);
DrawDisplayListOp overrides defer and recurses into a renderable nested
list at level + 1 (lines 1263-1267). -/
def deferOp (deferStruct : DeferStateStruct) (op : DLOp)
    (saveCount level : Int) : DeferStateStruct × DLOp :=
  match op with
  | .saveOp flags =>
      let res := deferStruct.mRenderer.save flags
      (⟨res.1,
        ⟨deferStruct.mDeferredList.records ++ [DLRecord.addSave op res.2]⟩,
        deferStruct.mReplayFlags⟩, op)
  | .restoreToCountOp c =>
      let list1 : DeferredDisplayList :=
        ⟨deferStruct.mDeferredList.records ++
          [DLRecord.addRestoreToCount op (saveCount + c)]⟩
      (⟨deferStruct.mRenderer.restoreToCount (saveCount + c), list1,
        deferStruct.mReplayFlags⟩, op)
  | .saveLayerOp area alpha mode flags =>
      let newSaveCount := deferStruct.mRenderer.getSaveCount
      let list1 : DeferredDisplayList :=
        ⟨deferStruct.mDeferredList.records ++ [DLRecord.addSaveLayer op newSaveCount]⟩
      (⟨deferStruct.mRenderer.saveLayerDeferred area alpha mode flags, list1,
        deferStruct.mReplayFlags⟩, op)
  | .translateOp _ _ =>
      ({ deferStruct with
          mRenderer := applyState op deferStruct.mRenderer saveCount }, op)
  | .clipRectOp _ _ | .clipPathOp _ _ | .clipRegionOp _ _ _ =>
      let list1 : DeferredDisplayList :=
        ⟨deferStruct.mDeferredList.records ++
          [DLRecord.addClip op deferStruct.mRenderer.clipState]⟩
      (⟨applyState op deferStruct.mRenderer saveCount, list1,
        deferStruct.mReplayFlags⟩, op)
  | .drawRectOp b _ | .drawLinesOp b _ _ _ | .drawColorOp b _ _
  | .drawPathOp b _ _ | .drawTextOp b _ _ _ _ _ _ _ _ _ =>
      if b.mQuickRejected && clipChildrenSet deferStruct.mReplayFlags then
        (deferStruct, op)
      else
        deferDrawUnchecked deferStruct op
  | .drawDisplayListOp b lb odl fl =>
      match odl with
      | some d =>
          if d.renderable then
            let res := deferDisplayList deferStruct d (level + 1)
            (res.1, .drawDisplayListOp b lb (some res.2) fl)
          else (deferStruct, op)
      | none => (deferStruct, op)

/-- Modelled from the spec: the DisplayList defer protocol, missing from
src — iterate the recorded ops in order, handing each the save count
baseline in force when the list began executing (the renderer save count
at entry) and the given level. -/
def deferDisplayList (deferStruct : DeferStateStruct) (d : DisplayList)
    (level : Int) : DeferStateStruct × DisplayList :=
  match d with
  | ⟨ren, w, h, ops⟩ =>
      let res := deferOpSeq deferStruct ops deferStruct.mRenderer.saveCount level
      (res.1, ⟨ren, w, h, res.2⟩)

/-- Sequential defer of a list of recorded ops. -/
def deferOpSeq (deferStruct : DeferStateStruct) (ops : List DLOp)
    (saveCount level : Int) : DeferStateStruct × List DLOp :=
  match ops with
  | [] => (deferStruct, [])
  | o :: rest =>
      let res1 := deferOp deferStruct o saveCount level
      let res2 := deferOpSeq res1.1 rest saveCount level
      (res2.1, res1.2 :: res2.2)

end

mutual

/-- The replay entry point of every modelled op. State ops apply their
state directly (source lines 116-118); draw ops use the DrawOp base replay
with its quick reject guard, accumulating the draw status (lines 142-149);
DrawDisplayListOp overrides replay and recurses into a renderable nested
list at level + 1 (lines 1268-1272). -/
def replayOp (replayStruct : ReplayStateStruct) (op : DLOp)
    (saveCount level : Int) : ReplayStateStruct :=
  match op with
  | .saveOp _ | .restoreToCountOp _ | .saveLayerOp _ _ _ _ | .translateOp _ _
  | .clipRectOp _ _ | .clipPathOp _ _ | .clipRegionOp _ _ _ =>
      { replayStruct with
          mRenderer := applyState op replayStruct.mRenderer saveCount }
  | .drawRectOp b _ | .drawLinesOp b _ _ _ | .drawColorOp b _ _
  | .drawPathOp b _ _ | .drawTextOp b _ _ _ _ _ _ _ _ _ =>
      if b.mQuickRejected && clipChildrenSet replayStruct.mReplayFlags then
        replayStruct
      else
        replayDrawUnchecked replayStruct op level
  | .drawDisplayListOp _ _ odl _ =>
      match odl with
      | some d =>
          if d.renderable then replayDisplayList replayStruct d (level + 1)
          else replayStruct
      | none => replayStruct

/-- Modelled from the spec: the DisplayList replay protocol, missing from
src — iterate the recorded ops in order under the save count baseline in
force at entry. -/
def replayDisplayList (replayStruct : ReplayStateStruct) (d : DisplayList)
    (level : Int) : ReplayStateStruct :=
  match d with
  | ⟨_, _, _, ops⟩ =>
      replayOpSeq replayStruct ops replayStruct.mRenderer.saveCount level

/-- Sequential replay of a list of recorded ops. -/
def replayOpSeq (replayStruct : ReplayStateStruct) (ops : List DLOp)
    (saveCount level : Int) : ReplayStateStruct :=
  match ops with
  | [] => replayStruct
  | o :: rest => replayOpSeq (replayOp replayStruct o saveCount level) rest saveCount level

end

/-- Loop of the DrawBoundedOp point list constructor (source lines
189-194): fold point i into the rectangle via fminf and fmaxf; the index
steps over float pairs. -/
def foldPointBounds (points : List Q) (count : Nat) (i : Nat) (r : Rect) :
    Rect :=
  if i < count then
    foldPointBounds points count (i + 2)
      ⟨min r.left (points.getD i 0), min r.top (points.getD (i + 1) 0),
       max r.right (points.getD i 0), max r.bottom (points.getD (i + 1) 0)⟩
  else r
termination_by count - i

/-- DrawBoundedOp point list constructor bounds (source lines 187-195):
start from the first point and fold the remaining ones; count is the
number of floats, twice the number of points. -/
def pointListBounds (points : List Q) (count : Nat) : Rect :=
  foldPointBounds points count 2
    ⟨points.getD 0 0, points.getD 1 0, points.getD 0 0, points.getD 1 0⟩

/-- DrawLinesOp constructor (source lines 1056-1060): the point list
bounds outset by half the stroke width at construction time. Callers pass
a non null paint. -/
def mkDrawLinesOp (points : List Q) (count : Nat) (paint : Paint)
    (qr : Bool) (st : DeferredDisplayState) : DLOp :=
  DLOp.drawLinesOp ⟨some paint, qr, st⟩
    ((pointListBounds points count).outset paint.strokeWidthOutset) points count

/-- Erases the state snapshot slot of the DrawOp base fields. -/
def eraseBase (b : DrawBase) : DrawBase :=
  { b with state := stateZero }

mutual

/-- Erases the mutable per-op slots — the state snapshot and the
DrawTextOp precache transform cache — recursively through nested lists;
what remains is exactly the construction time parameters together with the
externally set quick rejected flag. -/
def eraseMutableOp : DLOp → DLOp
  | .drawRectOp b lb => .drawRectOp (eraseBase b) lb
  | .drawLinesOp b lb pts c => .drawLinesOp (eraseBase b) lb pts c
  | .drawColorOp b c mode => .drawColorOp (eraseBase b) c mode
  | .drawPathOp b lb p => .drawPathOp (eraseBase b) lb p
  | .drawTextOp b lb t bc c x y pos len _ =>
      .drawTextOp (eraseBase b) lb t bc c x y pos len Mat4.sentinel
  | .drawDisplayListOp b lb odl fl =>
      .drawDisplayListOp (eraseBase b) lb (eraseMutableNested odl) fl
  | op => op

/-- Erasure of the mutable slots inside an optional nested list. -/
def eraseMutableNested : Option DisplayList → Option DisplayList
  | some ⟨ren, w, h, ops⟩ => some ⟨ren, w, h, eraseMutableOps ops⟩
  | none => none

/-- Erasure of the mutable slots across a list of ops. -/
def eraseMutableOps : List DLOp → List DLOp
  | [] => []
  | o :: rest => eraseMutableOp o :: eraseMutableOps rest

end

/-- Erases exactly the state snapshot slot of a draw op, the only
per-operation storage the spec allows the defer pass to write. -/
def eraseStateOnly (op : DLOp) : DLOp :=
  mapBase (fun b => { b with state := stateZero }) op

/-- The DrawTextOp precache transform cache of an op, when it has one. -/
def precacheOf : DLOp → Option Mat4
  | .drawTextOp _ _ _ _ _ _ _ _ _ pt => some pt
  | _ => none

/-! Concrete fixtures used by counterexamples and witnesses. -/

/-- A renderer fixture: save count 5, empty clip, a current transform, a
font transform distinct from the sentinel, draw status 1, empty trace. -/
def renderer0 : OpenGLRenderer := ⟨5, [], Mat4.m 7, Mat4.m 3, 1, []⟩

/-- A fill style paint with no path effect and no antialiasing. -/
def paint0 : Paint := ⟨4, PaintStyle.kFill_Style, false, false, 0⟩

/-- A fill style paint with antialiasing on and a non null path effect. -/
def paintFx : Paint := ⟨4, PaintStyle.kFill_Style, true, true, 0⟩

/-- A stroke style paint with stroke width 4. -/
def paintStroke : Paint := ⟨4, PaintStyle.kStroke_Style, false, false, 0⟩

def rect0 : Rect := ⟨0, 0, 10, 10⟩

def textA : String := "a"

/-- A renderable nested list holding one rect draw. -/
def cexNested : DisplayList :=
  ⟨true, 100, 100, [DLOp.drawRectOp ⟨some paint0, false, stateZero⟩ rect0]⟩

/-- A quick rejected DrawDisplayListOp over the renderable nested list. -/
def cexDDL : DLOp :=
  DLOp.drawDisplayListOp ⟨none, true, stateZero⟩ rect0 (some cexNested) 0

/-- A quick rejected rect draw op. -/
def qrRectOp : DLOp := DLOp.drawRectOp ⟨some paint0, true, stateZero⟩ rect0

/-- A color draw op, whose getLocalBounds reports no bounds. -/
def colorOp0 : DLOp := DLOp.drawColorOp ⟨none, false, stateZero⟩ 17 2

/-- A text draw op with the freshly constructed sentinel precache cache. -/
def cexTextOp : DLOp :=
  DLOp.drawTextOp ⟨some paint0, false, stateZero⟩ rect0 textA 1 1 0 0 [] 0
    Mat4.sentinel

/-- Defer pass state with the clip children replay flag set. -/
def s0 : DeferStateStruct := ⟨renderer0, ⟨[]⟩, kReplayFlag_ClipChildren⟩

/-- Defer pass state with the clip children replay flag absent. -/
def sPlain : DeferStateStruct := ⟨renderer0, ⟨[]⟩, 0⟩

/-- Replay pass state with the clip children replay flag set. -/
def rs0 : ReplayStateStruct := ⟨renderer0, rect0, kReplayFlag_ClipChildren, 0⟩

/-- Replay pass state with the clip children replay flag absent. -/
def rsPlain : ReplayStateStruct := ⟨renderer0, rect0, 0, 0⟩

/-! Helper lemmas. -/

theorem eraseBase_state (f : DeferredDisplayState → DeferredDisplayState)
    (b : DrawBase) : eraseBase { b with state := f b.state } = eraseBase b := rfl

theorem erase_mapBase (f : DrawBase → DrawBase)
    (hf : ∀ b, eraseBase (f b) = eraseBase b) (op : DLOp) :
    eraseMutableOp (mapBase f op) = eraseMutableOp op := by
  cases op <;> simp [mapBase, eraseMutableOp, hf]

theorem erase_setStateBounds (op : DLOp) (r : Rect) :
    eraseMutableOp (setStateBounds op r) = eraseMutableOp op := by
  unfold DLOp.setStateBounds
  exact erase_mapBase
    (fun b => { b with state := { b.state with mBounds := r } })
    (fun b => rfl) op

theorem erase_setStateMatrix (op : DLOp) (mm : Mat4) :
    eraseMutableOp (mapBase
      (fun b => { b with state := { b.state with mMatrix := mm } }) op)
      = eraseMutableOp op :=
  erase_mapBase
    (fun b => { b with state := { b.state with mMatrix := mm } })
    (fun b => rfl) op

theorem erase_onDrawOpDeferred (op : DLOp) (r : OpenGLRenderer) :
    eraseMutableOp (onDrawOpDeferred op r).2 = eraseMutableOp op := by
  cases op <;> simp [onDrawOpDeferred, eraseMutableOp] <;> split <;>
    simp [eraseMutableOp]

theorem erase_deferDrawUnchecked (s : DeferStateStruct) (op : DLOp) :
    eraseMutableOp (deferDrawUnchecked s op).2 = eraseMutableOp op := by
  cases h : getLocalBounds op <;>
    simp only [deferDrawUnchecked, addDrawOpModel, h] <;>
    rw [erase_onDrawOpDeferred, erase_setStateMatrix, erase_setStateBounds]

theorem deferOp_erase :
    ∀ (s : DeferStateStruct) (op : DLOp) (sc lv : Int),
      eraseMutableOp (deferOp s op sc lv).2 = eraseMutableOp op := by
  apply deferOp.induct
    (fun s op sc lv => eraseMutableOp (deferOp s op sc lv).2 = eraseMutableOp op)
    (fun s d lv =>
      eraseMutableOps (deferDisplayList s d lv).2.ops = eraseMutableOps d.ops ∧
      (deferDisplayList s d lv).2.renderable = d.renderable ∧
      (deferDisplayList s d lv).2.width = d.width ∧
      (deferDisplayList s d lv).2.height = d.height)
    (fun s ops sc lv =>
      eraseMutableOps (deferOpSeq s ops sc lv).2 = eraseMutableOps ops)
  all_goals intros
  all_goals
    try simp_all [deferOp, deferOpSeq, deferDisplayList, eraseMutableOps,
      eraseMutableOp, eraseMutableNested, erase_deferDrawUnchecked]
  all_goals
    try (split <;> simp_all [erase_deferDrawUnchecked])
  all_goals try simp [eraseMutableOp]

theorem precacheOf_eraseStateOnly (op : DLOp) :
    precacheOf (eraseStateOnly op) = precacheOf op := by
  cases op <;> simp [precacheOf, eraseStateOnly, mapBase]

theorem foldPointBounds_mono (pts : List Q) (c : Nat) :
    ∀ (i : Nat) (r : Rect),
      (foldPointBounds pts c i r).left ≤ r.left ∧
      (foldPointBounds pts c i r).top ≤ r.top ∧
      r.right ≤ (foldPointBounds pts c i r).right ∧
      r.bottom ≤ (foldPointBounds pts c i r).bottom := by
  intro i r
  induction i, r using foldPointBounds.induct pts c with
  | case1 i r h ih =>
      rw [foldPointBounds, if_pos h]
      refine ⟨le_trans ih.1 (min_le_left _ _), le_trans ih.2.1 (min_le_left _ _),
        le_trans (le_max_left _ _) ih.2.2.1, le_trans (le_max_left _ _) ih.2.2.2⟩
  | case2 i r h =>
      rw [foldPointBounds, if_neg h]
      exact ⟨le_refl _, le_refl _, le_refl _, le_refl _⟩

theorem foldPointBounds_contains (pts : List Q) (c : Nat) :
    ∀ (i : Nat) (r : Rect) (k : Nat), i % 2 = 0 → i ≤ 2 * k → 2 * k < c →
      (foldPointBounds pts c i r).left ≤ pts.getD (2 * k) 0 ∧
      (foldPointBounds pts c i r).top ≤ pts.getD (2 * k + 1) 0 ∧
      pts.getD (2 * k) 0 ≤ (foldPointBounds pts c i r).right ∧
      pts.getD (2 * k + 1) 0 ≤ (foldPointBounds pts c i r).bottom := by
  intro i r
  induction i, r using foldPointBounds.induct pts c with
  | case1 i r h ih =>
      intro k h0 h1 h2
      rw [foldPointBounds, if_pos h]
      by_cases hk : 2 * k = i
      · subst hk
        have hm := foldPointBounds_mono pts c (2 * k + 2)
          ⟨min r.left (pts.getD (2 * k) 0), min r.top (pts.getD (2 * k + 1) 0),
           max r.right (pts.getD (2 * k) 0), max r.bottom (pts.getD (2 * k + 1) 0)⟩
        exact ⟨le_trans hm.1 (min_le_right _ _), le_trans hm.2.1 (min_le_right _ _),
          le_trans (le_max_right _ _) hm.2.2.1, le_trans (le_max_right _ _) hm.2.2.2⟩
      · exact ih k (by omega) (by omega) h2
  | case2 i r h =>
      intro k h0 h1 h2
      exact absurd (Nat.lt_of_le_of_lt h1 h2) h

/-! Claim theorems. -/

/-- C3: for every clip operation, defer hands the op to the deferred batch
buffer through addClip strictly before applying the clip change to the
renderer: the addClip record carries the clip state the renderer had
before the op ran, while the renderer afterwards carries the clip state
extended by the change applyState applies — for ClipRegionOp that change
reads the never-initialized shadowing derived mOp (source line 539),
modelled by the mOpShadow field, not the constructed ClipOp.mOp — and the
renderer has gone exactly through applyState. -/
theorem C3_clip_registers_before_apply (op : DLOp) (h : DLOp.isClipOp op = true) :
    ∀ (s : DeferStateStruct) (sc lv : Int),
      (deferOp s op sc lv).1.mDeferredList.records
        = s.mDeferredList.records ++ [DLRecord.addClip op s.mRenderer.clipState] ∧
      (deferOp s op sc lv).1.mRenderer = applyState op s.mRenderer sc ∧
      (deferOp s op sc lv).1.mRenderer.clipState
        = s.mRenderer.clipState ++ op.clipCallOf.toList := by
  cases op <;>
    first
      | exact Bool.noConfusion h
      | (intro s sc lv
         refine ⟨?_, ?_, ?_⟩ <;>
           simp [deferOp, applyState, OpenGLRenderer.applyClip, DLOp.clipCallOf])

/-- C3 witness at a concrete intersect clip rect op, and at a concrete
clip region op whose constructed mOp is intersect while its indeterminate
shadow member holds replace: the applied change carries the shadow
value. -/
theorem C3_clip_witness :
    DLOp.isClipOp (DLOp.clipRectOp rect0 RegionOp.kIntersect_Op) = true ∧
    ((deferOp sPlain (DLOp.clipRectOp rect0 RegionOp.kIntersect_Op) 0 0).1.mDeferredList.records
        = sPlain.mDeferredList.records
          ++ [DLRecord.addClip (DLOp.clipRectOp rect0 RegionOp.kIntersect_Op)
                sPlain.mRenderer.clipState] ∧
      (deferOp sPlain (DLOp.clipRectOp rect0 RegionOp.kIntersect_Op) 0 0).1.mRenderer
        = applyState (DLOp.clipRectOp rect0 RegionOp.kIntersect_Op) sPlain.mRenderer 0 ∧
      (deferOp sPlain (DLOp.clipRectOp rect0 RegionOp.kIntersect_Op) 0 0).1.mRenderer.clipState
        = sPlain.mRenderer.clipState
          ++ (DLOp.clipRectOp rect0 RegionOp.kIntersect_Op).clipCallOf.toList) ∧
    DLOp.isClipOp (DLOp.clipRegionOp 9 RegionOp.kIntersect_Op RegionOp.kReplace_Op) = true ∧
    (deferOp sPlain
        (DLOp.clipRegionOp 9 RegionOp.kIntersect_Op RegionOp.kReplace_Op) 0 0).1.mRenderer.clipState
      = sPlain.mRenderer.clipState ++ [ClipCall.region 9 RegionOp.kReplace_Op] :=
  ⟨rfl,
   C3_clip_registers_before_apply (DLOp.clipRectOp rect0 RegionOp.kIntersect_Op)
     rfl sPlain 0 0,
   rfl,
   (C3_clip_registers_before_apply
     (DLOp.clipRegionOp 9 RegionOp.kIntersect_Op RegionOp.kReplace_Op)
     rfl sPlain 0 0).2.2⟩

/-- C4: during a defer pass a SaveLayerOp never invokes the immediate
saveLayer entry: the renderer receives exactly the state-only
saveLayerDeferred placeholder, the batch buffer receives addSaveLayer with
the save count read from the renderer before the placeholder, the op
itself is unchanged; the real saveLayer call is issued by applyState. -/
theorem C4_saveLayer_deferred (area : Rect) (alpha : Int) (mode : Nat)
    (flags : Int) (s : DeferStateStruct) (r : OpenGLRenderer) (sc lv : Int) :
    (deferOp s (DLOp.saveLayerOp area alpha mode flags) sc lv).1.mRenderer.calls
      = s.mRenderer.calls ++ [RCall.saveLayerDeferred area alpha mode flags] ∧
    (deferOp s (DLOp.saveLayerOp area alpha mode flags) sc lv).1.mDeferredList.records
      = s.mDeferredList.records
        ++ [DLRecord.addSaveLayer (DLOp.saveLayerOp area alpha mode flags)
              s.mRenderer.saveCount] ∧
    (deferOp s (DLOp.saveLayerOp area alpha mode flags) sc lv).2
      = DLOp.saveLayerOp area alpha mode flags ∧
    (applyState (DLOp.saveLayerOp area alpha mode flags) r sc).calls
      = r.calls ++ [RCall.saveLayer area alpha mode flags] := by
  refine ⟨?_, ?_, ?_, ?_⟩ <;>
    simp [deferOp, applyState, OpenGLRenderer.saveLayerDeferred,
      OpenGLRenderer.saveLayer, OpenGLRenderer.getSaveCount]

/-- C5: a RestoreToCountOp with recorded offset m under baseline sc
restores the renderer to depth sc + m in both protocols, and in the defer
pass the batch buffer is handed the same resolved count sc + m. -/
theorem C5_restore_relative_to_baseline (m : Int) (s : DeferStateStruct)
    (rs : ReplayStateStruct) (sc lv : Int) :
    (replayOp rs (DLOp.restoreToCountOp m) sc lv).mRenderer.saveCount = sc + m ∧
    (replayOp rs (DLOp.restoreToCountOp m) sc lv).mRenderer.calls
      = rs.mRenderer.calls ++ [RCall.restoreToCount (sc + m)] ∧
    (deferOp s (DLOp.restoreToCountOp m) sc lv).1.mRenderer.saveCount = sc + m ∧
    (deferOp s (DLOp.restoreToCountOp m) sc lv).1.mRenderer.calls
      = s.mRenderer.calls ++ [RCall.restoreToCount (sc + m)] ∧
    (deferOp s (DLOp.restoreToCountOp m) sc lv).1.mDeferredList.records
      = s.mDeferredList.records
        ++ [DLRecord.addRestoreToCount (DLOp.restoreToCountOp m) (sc + m)] := by
  refine ⟨?_, ?_, ?_, ?_, ?_⟩ <;>
    simp [deferOp, replayOp, applyState, OpenGLRenderer.restoreToCount]

/-- C9: a stroke capable op (DrawStrokableOp, drawRectOp here) stores its
bounds before stroke outsetting and getLocalBounds outsets them by exactly
half the paint stroke width precisely when a paint is present whose style
is not fill; DrawLinesOp, which knows it is stroke capable, applies the
same half stroke width outset to its stored bounds at construction time;
a bounded non-strokable op (drawPathOp) reports its stored bounds without
any outset. -/
theorem C9_stroke_outset :
    (∀ (p : Paint) (qr : Bool) (st : DeferredDisplayState) (lb : Rect),
        p.style ≠ PaintStyle.kFill_Style →
          DLOp.getLocalBounds (DLOp.drawRectOp ⟨some p, qr, st⟩ lb)
            = some (lb.outset (p.strokeWidth * (1 / 2)))) ∧
    (∀ (p : Paint) (qr : Bool) (st : DeferredDisplayState) (lb : Rect),
        p.style = PaintStyle.kFill_Style →
          DLOp.getLocalBounds (DLOp.drawRectOp ⟨some p, qr, st⟩ lb) = some lb) ∧
    (∀ (qr : Bool) (st : DeferredDisplayState) (lb : Rect),
        DLOp.getLocalBounds (DLOp.drawRectOp ⟨none, qr, st⟩ lb) = some lb) ∧
    (∀ (points : List Q) (c : Nat) (p : Paint) (qr : Bool)
        (st : DeferredDisplayState),
        mkDrawLinesOp points c p qr st
          = DLOp.drawLinesOp ⟨some p, qr, st⟩
              ((pointListBounds points c).outset (p.strokeWidth * (1 / 2)))
              points c) ∧
    (∀ (b : DrawBase) (lb : Rect) (p : SkPath),
        DLOp.getLocalBounds (DLOp.drawPathOp b lb p) = some lb) := by
  refine ⟨?_, ?_, ?_, ?_, ?_⟩ <;> intros <;>
    simp_all [DLOp.getLocalBounds, mkDrawLinesOp, Paint.strokeWidthOutset]

/-- C9 witness at a concrete stroke style paint. -/
theorem C9_stroke_outset_witness :
    paintStroke.style ≠ PaintStyle.kFill_Style ∧
    DLOp.getLocalBounds (DLOp.drawRectOp ⟨some paintStroke, false, stateZero⟩ rect0)
      = some (rect0.outset (paintStroke.strokeWidth * (1 / 2))) :=
  ⟨by decide,
   C9_stroke_outset.1 paintStroke false stateZero rect0 (by decide)⟩

/-- C10 counterexample: a fill style paint with antialiasing on but with a
non null path effect makes drawRectOp (a DrawStrokableOp) report the alpha
mask texture batch id, not the antialiased vertices id the claim
promises to every fill style antialiased op. -/
theorem C10_batch_id_cex :
    paintFx.style = PaintStyle.kFill_Style ∧
    paintFx.antiAlias = true ∧
    DLOp.getBatchId (DLOp.drawRectOp ⟨some paintFx, false, stateZero⟩ rect0)
      = some OpBatchId.kOpBatch_AlphaMaskTexture ∧
    DLOp.getBatchId (DLOp.drawRectOp ⟨some paintFx, false, stateZero⟩ rect0)
      ≠ some OpBatchId.kOpBatch_AlphaVertices := by
  refine ⟨rfl, rfl, rfl, by decide⟩

/-- C10 (amended): a DrawStrokableOp whose paint has a non null path
effect reports the alpha mask textured batch id regardless of antialiasing
and of style; with a null path effect it reports the antialiased vertices
id when antialiasing is on and the plain vertices id when off, again
regardless of style; DrawLinesOp classifies by the antialiasing flag
alone. -/
theorem C10_batch_id_amended :
    ∀ (p : Paint) (qr : Bool) (st : DeferredDisplayState) (lb : Rect)
      (pts : List Q) (c : Nat),
      DLOp.getBatchId (DLOp.drawRectOp ⟨some p, qr, st⟩ lb)
        = some (if p.pathEffect then OpBatchId.kOpBatch_AlphaMaskTexture
                else if p.antiAlias then OpBatchId.kOpBatch_AlphaVertices
                else OpBatchId.kOpBatch_Vertices) ∧
      DLOp.getBatchId (DLOp.drawLinesOp ⟨some p, qr, st⟩ lb pts c)
        = some (if p.antiAlias then OpBatchId.kOpBatch_AlphaVertices
                else OpBatchId.kOpBatch_Vertices) := by
  intro p qr st lb pts c
  exact ⟨rfl, rfl⟩

/-- C1 counterexample: a quick rejected DrawDisplayListOp under the clip
children flag is not a no-op — its overridden defer ignores the flag and
recurses into the renderable nested list, which registers a draw with the
deferred batch buffer. -/
theorem C1_quick_reject_cex :
    cexDDL.getQuickRejected = true ∧
    clipChildrenSet s0.mReplayFlags = true ∧
    s0.mDeferredList.records.length = 0 ∧
    (deferOp s0 cexDDL 0 0).1.mDeferredList.records.length = 1 := by
  refine ⟨rfl, rfl, rfl, ?_⟩
  simp [deferOp, deferDisplayList, deferOpSeq, cexDDL, cexNested, s0,
    deferDrawUnchecked, addDrawOpModel, onDrawOpDeferred, DLOp.setStateBounds,
    DLOp.mapBase, DLOp.getLocalBounds, clipChildrenSet, kReplayFlag_ClipChildren,
    paint0, stateZero, renderer0]

/-- C1 (amended): for every draw op that uses the inherited DrawOp entry
points (all draw ops except DrawDisplayListOp, whose overridden
defer/replay ignore the flag), if quickRejected is set and the replay
flags include the clip children flag then defer and replay return with the
pass state and the op completely unchanged; if the clip children flag is
absent, both run their full unguarded bodies regardless of the flag. -/
theorem C1_quick_reject_guard (op : DLOp) (h : DLOp.isBaseDrawOp op = true) :
    (∀ (s : DeferStateStruct) (sc lv : Int),
        op.getQuickRejected = true → clipChildrenSet s.mReplayFlags = true →
        deferOp s op sc lv = (s, op)) ∧
    (∀ (rs : ReplayStateStruct) (sc lv : Int),
        op.getQuickRejected = true → clipChildrenSet rs.mReplayFlags = true →
        replayOp rs op sc lv = rs) ∧
    (∀ (s : DeferStateStruct) (sc lv : Int),
        clipChildrenSet s.mReplayFlags = false →
        deferOp s op sc lv = deferDrawUnchecked s op) ∧
    (∀ (rs : ReplayStateStruct) (sc lv : Int),
        clipChildrenSet rs.mReplayFlags = false →
        replayOp rs op sc lv = replayDrawUnchecked rs op lv) := by
  cases op <;>
    first
      | exact Bool.noConfusion h
      | (refine ⟨fun s sc lv h1 h2 => ?_, fun rs sc lv h1 h2 => ?_,
           fun s sc lv h1 => ?_, fun rs sc lv h1 => ?_⟩ <;>
         simp_all [deferOp, replayOp, DLOp.getQuickRejected, DLOp.drawBase])

/-- C1 witness at a concrete quick rejected rect op under both flag
settings. -/
theorem C1_quick_reject_witness :
    DLOp.isBaseDrawOp qrRectOp = true ∧
    deferOp s0 qrRectOp 0 0 = (s0, qrRectOp) ∧
    replayOp rs0 qrRectOp 0 0 = rs0 ∧
    deferOp sPlain qrRectOp 0 0 = deferDrawUnchecked sPlain qrRectOp ∧
    replayOp rsPlain qrRectOp 0 0 = replayDrawUnchecked rsPlain qrRectOp 0 :=
  ⟨rfl,
   (C1_quick_reject_guard qrRectOp rfl).1 s0 0 0 rfl rfl,
   (C1_quick_reject_guard qrRectOp rfl).2.1 rs0 0 0 rfl rfl,
   (C1_quick_reject_guard qrRectOp rfl).2.2.1 sPlain 0 0 rfl,
   (C1_quick_reject_guard qrRectOp rfl).2.2.2 rsPlain 0 0 rfl⟩

/-- C2 counterexample: the defer pass writes a per-operation field other
than the state snapshot — deferring a freshly constructed DrawTextOp
updates its precache transform cache from the sentinel to the renderer
font transform, so the op differs from its original even after erasing the
state snapshot, the only slot the claim allows to change. -/
theorem C2_precache_write_cex :
    precacheOf cexTextOp = some Mat4.sentinel ∧
    precacheOf ((deferOp sPlain cexTextOp 0 0).2) = some (Mat4.m 3) ∧
    eraseStateOnly ((deferOp sPlain cexTextOp 0 0).2) ≠ eraseStateOnly cexTextOp := by
  have h2 : precacheOf ((deferOp sPlain cexTextOp 0 0).2) = some (Mat4.m 3) := by
    simp [deferOp, cexTextOp, sPlain, renderer0, stateZero, paint0, textA,
      deferDrawUnchecked, addDrawOpModel, onDrawOpDeferred, DLOp.setStateBounds,
      DLOp.mapBase, DLOp.getLocalBounds, clipChildrenSet, precacheOf,
      OpenGLRenderer.findBestFontTransform]
  refine ⟨rfl, h2, fun heq => ?_⟩
  have := congrArg precacheOf heq
  rw [precacheOf_eraseStateOnly, precacheOf_eraseStateOnly, h2] at this
  simp [cexTextOp, precacheOf] at this

/-- C2 (amended): every parameter captured at construction is left
unchanged by defer and by the deferred draw hook — after erasing the state
snapshot and the DrawTextOp precache transform cache (the two per-op slots
the defer pass may write, recursively through nested lists), the op that
comes out of deferOp or out of onDrawOpDeferred is identical to the op
that went in. Replay takes no reference to the op storage at all in this
model, mirroring that the replay entry points write no op field. -/
theorem C2_params_immutable (op : DLOp) :
    (∀ (s : DeferStateStruct) (sc lv : Int),
        eraseMutableOp (deferOp s op sc lv).2 = eraseMutableOp op) ∧
    (∀ (r : OpenGLRenderer),
        eraseMutableOp (onDrawOpDeferred op r).2 = eraseMutableOp op) :=
  ⟨fun s sc lv => deferOp_erase s op sc lv,
   fun r => erase_onDrawOpDeferred op r⟩

/-- C6: a DrawDisplayListOp never issues a draw of its own — its applyDraw
is inert and unreachable from its overridden entry points; defer and
replay recurse into the nested list protocols at level + 1 exactly when
the list is present and renderable, and otherwise change nothing: no
status change, no batch buffer registration, no renderer call. -/
theorem C6_nested_delegation (b : DrawBase) (lb : Rect) (fl : Int) :
    (∀ (r : OpenGLRenderer) (dirty : Rect) (lv : Int)
        (odl : Option DisplayList),
        applyDraw (DLOp.drawDisplayListOp b lb odl fl) r dirty lv
          = (r, kStatusDone)) ∧
    (∀ (s : DeferStateStruct) (sc lv : Int),
        deferOp s (DLOp.drawDisplayListOp b lb none fl) sc lv
          = (s, DLOp.drawDisplayListOp b lb none fl)) ∧
    (∀ (rs : ReplayStateStruct) (sc lv : Int),
        replayOp rs (DLOp.drawDisplayListOp b lb none fl) sc lv = rs) ∧
    (∀ (d : DisplayList) (s : DeferStateStruct) (sc lv : Int),
        d.renderable = true →
        deferOp s (DLOp.drawDisplayListOp b lb (some d) fl) sc lv
          = ((deferDisplayList s d (lv + 1)).1,
             DLOp.drawDisplayListOp b lb (some (deferDisplayList s d (lv + 1)).2) fl)) ∧
    (∀ (d : DisplayList) (rs : ReplayStateStruct) (sc lv : Int),
        d.renderable = true →
        replayOp rs (DLOp.drawDisplayListOp b lb (some d) fl) sc lv
          = replayDisplayList rs d (lv + 1)) ∧
    (∀ (d : DisplayList) (s : DeferStateStruct) (sc lv : Int),
        d.renderable = false →
        deferOp s (DLOp.drawDisplayListOp b lb (some d) fl) sc lv
          = (s, DLOp.drawDisplayListOp b lb (some d) fl)) ∧
    (∀ (d : DisplayList) (rs : ReplayStateStruct) (sc lv : Int),
        d.renderable = false →
        replayOp rs (DLOp.drawDisplayListOp b lb (some d) fl) sc lv = rs) := by
  refine ⟨fun r dirty lv odl => rfl, fun s sc lv => ?_, fun rs sc lv => ?_,
    fun d s sc lv hd => ?_, fun d rs sc lv hd => ?_,
    fun d s sc lv hd => ?_, fun d rs sc lv hd => ?_⟩
  · simp [deferOp]
  · simp [replayOp]
  · simp [deferOp, hd]
  · simp [replayOp, hd]
  · simp [deferOp, hd]
  · simp [replayOp, hd]

/-- C6 witness at a concrete renderable nested list and a concrete absent
list. -/
theorem C6_nested_witness :
    cexNested.renderable = true ∧
    deferOp sPlain
        (DLOp.drawDisplayListOp ⟨none, false, stateZero⟩ rect0 (some cexNested) 0) 0 0
      = ((deferDisplayList sPlain cexNested (0 + 1)).1,
         DLOp.drawDisplayListOp ⟨none, false, stateZero⟩ rect0
           (some (deferDisplayList sPlain cexNested (0 + 1)).2) 0) ∧
    replayOp rsPlain
        (DLOp.drawDisplayListOp ⟨none, false, stateZero⟩ rect0 none 0) 0 0
      = rsPlain :=
  ⟨rfl,
   (C6_nested_delegation ⟨none, false, stateZero⟩ rect0 0).2.2.2.1 cexNested
     sPlain 0 0 rfl,
   (C6_nested_delegation ⟨none, false, stateZero⟩ rect0 0).2.2.1 rsPlain 0 0⟩

/-- C7: in a defer pass, a draw op that is not skipped by the quick reject
guard and whose getLocalBounds cannot produce bounds gets its state bounds
set to the empty rectangle and is still handed to the deferred batch
buffer through addDrawOp. -/
theorem C7_unbounded_empty_still_added (op : DLOp)
    (hbase : DLOp.isBaseDrawOp op = true)
    (hnb : op.getLocalBounds = none) :
    ∀ (s : DeferStateStruct) (sc lv : Int),
      op.getQuickRejected = false ∨ clipChildrenSet s.mReplayFlags = false →
      DLOp.stateBounds (deferOp s op sc lv).2 = some Rect.setEmpty ∧
      (deferOp s op sc lv).1.mDeferredList.records
        = s.mDeferredList.records ++ [DLRecord.addDrawOp (deferOp s op sc lv).2] := by
  cases op <;>
    first
      | exact Bool.noConfusion hbase
      | exact Option.noConfusion hnb
      | (rename_i b c mode
         intro s sc lv hq
         have hqr : b.mQuickRejected = false ∨ clipChildrenSet s.mReplayFlags = false := by
           simpa [DLOp.getQuickRejected, DLOp.drawBase] using hq
         have hcond : (b.mQuickRejected && clipChildrenSet s.mReplayFlags) = false := by
           rcases hqr with h1 | h1 <;> simp [h1]
         refine ⟨?_, ?_⟩ <;>
           simp [deferOp, hcond, deferDrawUnchecked, addDrawOpModel,
             onDrawOpDeferred, DLOp.getLocalBounds, DLOp.setStateBounds,
             DLOp.mapBase, DLOp.stateBounds, DLOp.drawBase])

/-- C7 witness at a concrete color draw op, whose bounds are
uncalculable. -/
theorem C7_unbounded_witness :
    DLOp.isBaseDrawOp colorOp0 = true ∧
    colorOp0.getLocalBounds = none ∧
    colorOp0.getQuickRejected = false ∧
    (DLOp.stateBounds (deferOp sPlain colorOp0 0 0).2 = some Rect.setEmpty ∧
     (deferOp sPlain colorOp0 0 0).1.mDeferredList.records
       = sPlain.mDeferredList.records
         ++ [DLRecord.addDrawOp (deferOp sPlain colorOp0 0 0).2]) :=
  ⟨rfl, rfl, rfl,
   C7_unbounded_empty_still_added colorOp0 rfl rfl sPlain 0 0 (Or.inl rfl)⟩

/-- C8: the DrawBoundedOp point list constructor starts the rectangle at
the first point and folds the rest via component-wise min and max, so for
a list of n points (2n floats) the rectangle contains every point, and for
n = 1 it is the degenerate rectangle at the single point. -/
theorem C8_point_bounds (points : List Q) (n : Nat) (h1 : 1 ≤ n)
    (h2 : points.length = 2 * n) :
    (∀ k, k < n →
      (pointListBounds points (2 * n)).left ≤ points.getD (2 * k) 0 ∧
      (pointListBounds points (2 * n)).top ≤ points.getD (2 * k + 1) 0 ∧
      points.getD (2 * k) 0 ≤ (pointListBounds points (2 * n)).right ∧
      points.getD (2 * k + 1) 0 ≤ (pointListBounds points (2 * n)).bottom) ∧
    (n = 1 →
      pointListBounds points (2 * n)
        = ⟨points.getD 0 0, points.getD 1 0, points.getD 0 0,
           points.getD 1 0⟩) := by
  constructor
  · intro k hk
    rcases Nat.eq_zero_or_pos k with hk0 | hkpos
    · subst hk0
      have hm := foldPointBounds_mono points (2 * n) 2
        ⟨points.getD 0 0, points.getD 1 0, points.getD 0 0, points.getD 1 0⟩
      exact ⟨hm.1, hm.2.1, hm.2.2.1, hm.2.2.2⟩
    · exact foldPointBounds_contains points (2 * n) 2
        ⟨points.getD 0 0, points.getD 1 0, points.getD 0 0, points.getD 1 0⟩
        k (by omega) (by omega) (by omega)
  · intro hn
    subst hn
    rw [pointListBounds, foldPointBounds]
    simp

/-- C8 witness at a concrete two point list and at a one point list. -/
theorem C8_point_bounds_witness :
    1 ≤ 2 ∧ ([(0 : Q), 0, 2, 3].length = 2 * 2) ∧
    ((∀ k, k < 2 →
      (pointListBounds [(0 : Q), 0, 2, 3] (2 * 2)).left
        ≤ [(0 : Q), 0, 2, 3].getD (2 * k) 0 ∧
      (pointListBounds [(0 : Q), 0, 2, 3] (2 * 2)).top
        ≤ [(0 : Q), 0, 2, 3].getD (2 * k + 1) 0 ∧
      [(0 : Q), 0, 2, 3].getD (2 * k) 0
        ≤ (pointListBounds [(0 : Q), 0, 2, 3] (2 * 2)).right ∧
      [(0 : Q), 0, 2, 3].getD (2 * k + 1) 0
        ≤ (pointListBounds [(0 : Q), 0, 2, 3] (2 * 2)).bottom) ∧
     ((2 : Nat) = 1 →
      pointListBounds [(0 : Q), 0, 2, 3] (2 * 2)
        = ⟨[(0 : Q), 0, 2, 3].getD 0 0, [(0 : Q), 0, 2, 3].getD 1 0,
           [(0 : Q), 0, 2, 3].getD 0 0, [(0 : Q), 0, 2, 3].getD 1 0⟩)) :=
  ⟨by decide, by rfl, C8_point_bounds [(0 : Q), 0, 2, 3] 2 (by decide) (by rfl)⟩

end HwuiModel
